import Mathlib

/-!
Verification of the gorewind ZeroMQ server loop (`src/server/server.go`)
against its natural-language specification.

Shallow embedding conventions:
* A ZeroMQ frame (`[]byte` / `zFrame` in Go) is modelled as a `String`
  regarded as an opaque byte sequence; the Go named type `zFrame` and
  `[]byte` coincide in the model, so the dynamic type assertions
  `.(zFrame)` of the source are identities here.
* A multipart message (`zMsg`, i.e. `[][]byte`) is a `List` of frames;
  a `nil` byte slice is the empty frame `""`.
* Goroutine panics (nil `*list.Element` dereference, `list.Remove(nil)`)
  are modelled by returning `none`.
* The event-store backend (`github.com/JensRantil/gorewind/eventstore`)
  is an external collaborator and is modelled abstractly as a record of
  the two operations the server calls (`Add`, `Query`).
-/

namespace Gorewind

/-- A single frame of a ZeroMQ message (`type zFrame []byte`,
server.go line 323), modelled as an opaque byte string. -/
abbrev zFrame := String

/-- A multipart ZeroMQ message (`type zMsg [][]byte`, server.go line 331). -/
abbrev zMsg := List zFrame

/-- The empty delimiter frame (`emptyFrame := zFrame("")`, line 347). -/
def emptyFrame : zFrame := ""

/-- `eventstore.Event`: the `{stream, data}` pair handed to `estore.Add`
(server.go lines 379-382). -/
structure Event where
  stream : zFrame
  data : zFrame
deriving Repr, DecidableEq

/-- `eventstore.QueryRequest`: the `{Stream, FromId, ToId}` triple handed
to `estore.Query` (server.go lines 413-417). -/
structure QueryRequest where
  stream : zFrame
  fromId : zFrame
  toId : zFrame
deriving Repr, DecidableEq

/-- One element received from the channel `estore.Query` returns: carries
`Id` and `Data` (server.go lines 428-432). -/
structure QueryEvent where
  id : zFrame
  data : zFrame
deriving Repr, DecidableEq

/-- `eventstore.StoredEvent`: a committed event with its id, as delivered
on the publish-notification channel (server.go lines 311-314). -/
structure StoredEvent where
  id : zFrame
  event : Event
deriving Repr, DecidableEq

/-- The backend contract consumed by the server: `Add` returns a fresh id
or an error, `Query` returns the (finite, one-pass) event sequence or an
error. Modelled abstractly; the real store lives outside this package. -/
structure EventStore where
  add : Event → Except String zFrame
  query : QueryRequest → Except String (List QueryEvent)

/-- A concrete backend used to instantiate universally quantified
theorems: `Add` always succeeds with id `"1"` and `Query` always returns
the empty sequence. -/
def estoreOk : EventStore :=
  { add := fun _ => .ok "1", query := fun _ => .ok [] }

/-- `listToFrames` (server.go lines 458-465): converts a linked list of
frames to a `zMsg`.  Faithful to the source: `frames := make(zMsg,
l.Len())` yields `l.length` nil (empty) frames, `i := 0`, and the loop
body assigns `frames[i] = e` — `i` is never incremented, so every
element is written to index 0. -/
def listToFrames (l : List zFrame) : zMsg :=
  let frames : zMsg := List.replicate l.length emptyFrame
  let i := 0
  l.foldl (fun fs e => fs.set i e) frames

/-- The envelope-scanning loop of `handleRequest` (server.go lines
346-354).  `acc` is `resptemplate`; the second argument is `parts`.
Each iteration removes the front of `parts`, pushes it onto
`resptemplate`, and then breaks when the *new* front of `parts` equals
the empty frame (the delimiter is left at the front of `parts`).
`none` models the panic when `parts.Front()` is nil: either
`parts.Remove(parts.Front())` on an empty list, or
`parts.Front().Value` in the break test after the last frame was
removed. -/
def envelopeScan : List zFrame → List zFrame → Option (List zFrame × List zFrame)
  | _, [] => none
  | acc, f :: rest =>
    match rest with
    | [] => none
    | g :: _ =>
      if g = emptyFrame then some (acc ++ [f], rest)
      else envelopeScan (acc ++ [f]) rest

/-- `handleRequest` (server.go lines 338-454).  Returns `none` when the
goroutine panics, otherwise `some rs` where `rs` is the list of response
messages pushed to `respchan`, in order.  The structure mirrors the
source: envelope scan, the (dead) `parts.Len() == 0` check, then the
switch on `string(parts.Front().Value)` with the `PUBLISH`, `QUERY` and
default arms; each response is assembled from a copy of `resptemplate`
and passed through `listToFrames`. -/
def handleRequest (estore : EventStore) (msg : zMsg) : Option (List zMsg) :=
  match envelopeScan [] msg with
  | none => none
  | some (resptemplate, parts) =>
    match parts with
    | [] =>
      some [listToFrames (resptemplate ++ ["ERROR Incoming command was empty. Ignoring it."])]
    | commandFrame :: afterCommand =>
      let command := commandFrame
      if command = "PUBLISH" then
        match afterCommand with
        | [estream, data] =>
          match estore.add { stream := estream, data := data } with
          | .error e =>
            some [listToFrames (resptemplate ++ ["ERROR " ++ e])]
          | .ok newId =>
            some [listToFrames (resptemplate ++ ["PUBLISHED", newId])]
        | _ =>
          some [listToFrames (resptemplate ++ ["ERROR Wrong number of frames for PUBLISH."])]
      else if command = "QUERY" then
        match afterCommand with
        | [estream, fromid, toid] =>
          match estore.query { stream := estream, fromId := fromid, toId := toid } with
          | .error e =>
            some [listToFrames (resptemplate ++ ["ERROR " ++ e])]
          | .ok events =>
            some ((events.map (fun ed => listToFrames (resptemplate ++ ["EVENT", ed.id, ed.data])))
                  ++ [listToFrames (resptemplate ++ ["END"])])
        | _ =>
          some [listToFrames (resptemplate ++ ["ERROR Wrong number of frames for QUERY."])]
      else
        some [listToFrames (resptemplate ++ ["ERROR Unknown request type."])]

/-- `publishAllSavedEvents` (server.go lines 309-320): for each
`StoredEvent` drained from the channel (modelled as the list of values
received before the channel closes, in receipt order) one 3-frame
message `[Stream, Id, Data]` is sent on the publish socket; send errors
are logged and the loop continues, and the function returns when the
channel is closed.  The result is the list of messages sent, in order. -/
def publishAllSavedEvents (toPublish : List StoredEvent) : List zMsg :=
  toPublish.map (fun stored => [stored.event.stream, stored.id, stored.event.data])

/-- The outcome of one `zmq.Poll` call inside `asyncPoll` (server.go
lines 232-233): a ready-handle count and an optional error. -/
structure PollResult where
  count : Nat
  err : Option String
deriving Repr, DecidableEq

/-- The notification condition of `asyncPoll` (server.go line 234):
`count > 0 || err != nil`. -/
def pollNotifies (r : PollResult) : Bool :=
  decide (0 < r.count) || r.err.isSome

/-- The notifications `asyncPoll` (server.go lines 230-245) emits on its
channel across a run of poll cycles whose outcomes are given by the
input list (the run ends when the stop signal is consumed after the
last cycle).  Each cycle emits exactly one `zmqPollResult{err}`
notification when `count > 0 || err != nil` and nothing otherwise,
then re-arms for the next cycle. -/
def asyncPollNotifications : List PollResult → List (Option String)
  | [] => []
  | r :: rs =>
    if pollNotifies r then r.err :: asyncPollNotifications rs
    else asyncPollNotifications rs

/-- The mutable state of a `Server` (server.go lines 70-81), restricted
to the fields the modelled operations touch: the mutex-guarded
`running` flag, whether the capacity-1 `stopChan` currently holds a
buffered signal, the `sync.WaitGroup` counter `waiter`, and whether the
socket/context pointers are non-nil. -/
structure SrvState where
  running : Bool
  stopBuffered : Bool
  waiter : Nat
  hasCommandSock : Bool
  hasEvpubSock : Bool
  hasContext : Bool
deriving Repr, DecidableEq

/-- `Server.IsRunning` (server.go lines 84-88). -/
def IsRunning (s : SrvState) : Bool := s.running

/-- `Server.setRunningState` (server.go lines 195-203): errors when the
flag already has the requested value, otherwise flips it. -/
def setRunningState (s : SrvState) (newState : Bool) : Except String SrvState :=
  if s.running = newState then .error "Already is in running state."
  else .ok { s with running := newState }

/-- What `Server.Start` (server.go lines 208-220) produces: an optional
error, the server state after the call, and whether the background
`loopServer` goroutine was launched. -/
structure StartResult where
  err : Option String
  state : SrvState
  loopLaunched : Bool
deriving Repr, DecidableEq

/-- `Server.Start` (server.go lines 208-220): `waiter.Add(1)`, then
`setRunningState(true)`; on error, `waiter.Done()` and return the error
without launching the goroutine; on success, launch `loopServer`. -/
def start (s : SrvState) : StartResult :=
  let s1 := { s with waiter := s.waiter + 1 }
  match setRunningState s1 true with
  | .error e => { err := some e, state := { s1 with waiter := s1.waiter - 1 }, loopLaunched := false }
  | .ok s2 => { err := none, state := s2, loopLaunched := true }

/-- The deferred actions of the goroutine `Start` launches (server.go
lines 214-218), run when `loopServer` returns: deferred LIFO, so
`setRunningState(false)` runs first (its error result is discarded),
then `waiter.Done()`. -/
def loopExit (s : SrvState) : SrvState :=
  let s1 := match setRunningState s false with
            | .ok s2 => s2
            | .error _ => s
  { s1 with waiter := s1.waiter - 1 }

/-- `sync.WaitGroup.Wait` (`Server.Wait`, server.go lines 90-92) returns
exactly when the counter is zero. -/
def waitReturns (s : SrvState) : Prop := s.waiter = 0

/-- The immediate (pre-`Wait`) outcome of `Server.Stop`
(server.go lines 98-116). -/
inductive StopOutcome
  | errNotRunning
  | errAlreadySignalled
  | signalledAndWaiting
deriving Repr, DecidableEq

/-- The non-blocking prefix of `Server.Stop` (server.go lines 98-107):
return an error if not running; otherwise try a non-blocking send on
the capacity-1 `stopChan` (`select` with `default`), returning the
"Stop already signalled." error if it is already full; otherwise the
signal is buffered and the caller proceeds to `v.Wait()`, which blocks
until the loop goroutine has exited. -/
def stopAttempt (s : SrvState) : StopOutcome × SrvState :=
  if IsRunning s = false then (.errNotRunning, s)
  else if s.stopBuffered then (.errAlreadySignalled, s)
  else (.signalledAndWaiting, { s with stopBuffered := true })

/-- A running server with one live loop goroutine and no stop signal
buffered. -/
def sRunning : SrvState :=
  { running := true, stopBuffered := false, waiter := 1,
    hasCommandSock := true, hasEvpubSock := true, hasContext := true }

/-- A stopped server with no loop goroutine. -/
def sIdle : SrvState :=
  { running := false, stopBuffered := false, waiter := 0,
    hasCommandSock := true, hasEvpubSock := true, hasContext := true }

/-- A running server whose stop signal has already been buffered by a
first `Stop()` call. -/
def sSignalled : SrvState :=
  { running := true, stopBuffered := true, waiter := 1,
    hasCommandSock := true, hasEvpubSock := true, hasContext := true }

/-- `InitParams` (server.go lines 37-50), reduced to whether each of the
four required pointer fields is non-nil. -/
structure InitParams where
  hasStore : Bool
  hasCommandSocketZPath : Bool
  hasEvPubSocketZPath : Bool
  hasZMQContext : Bool
deriving Repr, DecidableEq

/-- `checkAllInitParamsSet` (server.go lines 53-67), checking the four
fields in source order. -/
def checkAllInitParamsSet (p : InitParams) : Option String :=
  if p.hasStore = false then some "Missing param: Store"
  else if p.hasZMQContext = false then some "Missing ZeroMQ context."
  else if p.hasCommandSocketZPath = false then some "Missing param: CommandSocketZPath"
  else if p.hasEvPubSocketZPath = false then some "Missing param: EvPubSocketZPath"
  else none

/-- The outcomes of the four fallible ZeroMQ calls `New` makes, in
source order: `NewSocket(ROUTER)`, `Bind` on the command socket,
`NewSocket(PUB)`, `Bind` on the publish socket.  `some e` is a failure
with message `e`. -/
structure ZmqEnv where
  newRouterErr : Option String
  routerBindErr : Option String
  newPubErr : Option String
  pubBindErr : Option String
deriving Repr, DecidableEq

/-- `Server.Close` (server.go lines 175-193): closes `evpubsock`, then
`commandsock`, then the context, nil-ing each field.  Socket/context
close is modelled as infallible, so the early-return-on-error paths of
the source never fire in the model. -/
def CloseServer (s : SrvState) : SrvState :=
  let s1 := if s.hasEvpubSock then { s with hasEvpubSock := false } else s
  let s2 := if s1.hasCommandSock then { s1 with hasCommandSock := false } else s1
  if s2.hasContext then { s2 with hasContext := false } else s2

/-- What `New` (server.go lines 121-172) produces: the returned handle
(`some` on success, `none` when an error is returned), the returned
error, which sockets were created during the call, and the server
struct as it stands when `New` returns (after the deferred
`server.Close()` has run on every failure path past the parameter
checks). -/
structure NewResult where
  server : Option SrvState
  err : Option String
  commandSockCreated : Bool
  evpubSockCreated : Bool
  finalState : SrvState
deriving Repr, DecidableEq

/-- A placeholder state for the return paths of `New` that fire before
the `Server` struct is built (nil params, failed parameter check). -/
def noServerBuilt : SrvState :=
  { running := false, stopBuffered := false, waiter := 0,
    hasCommandSock := false, hasEvpubSock := false, hasContext := false }

/-- `New` (server.go lines 121-172).  Mirrors the source: nil-params and
parameter-check errors return before anything is built; then the struct
is created with `running := false` and an empty capacity-1 `stopChan`,
the deferred close-on-failure is registered, `server.context` is set
from the params, and the four ZeroMQ calls run in order, each failure
returning its error after the deferred `server.Close()` tears the
partial struct down.  On success the deferred close is disarmed and the
struct is returned. -/
def NewServer (params : Option InitParams) (env : ZmqEnv) : NewResult :=
  match params with
  | none =>
    { server := none, err := some "Missing init params",
      commandSockCreated := false, evpubSockCreated := false, finalState := noServerBuilt }
  | some p =>
    match checkAllInitParamsSet p with
    | some e =>
      { server := none, err := some e,
        commandSockCreated := false, evpubSockCreated := false, finalState := noServerBuilt }
    | none =>
      let server0 : SrvState :=
        { running := false, stopBuffered := false, waiter := 0,
          hasCommandSock := false, hasEvpubSock := false, hasContext := true }
      match env.newRouterErr with
      | some e =>
        { server := none, err := some e,
          commandSockCreated := false, evpubSockCreated := false,
          finalState := CloseServer server0 }
      | none =>
        let server1 := { server0 with hasCommandSock := true }
        match env.routerBindErr with
        | some e =>
          { server := none, err := some e,
            commandSockCreated := true, evpubSockCreated := false,
            finalState := CloseServer server1 }
        | none =>
          match env.newPubErr with
          | some e =>
            { server := none, err := some e,
              commandSockCreated := true, evpubSockCreated := false,
              finalState := CloseServer server1 }
          | none =>
            let server2 := { server1 with hasEvpubSock := true }
            match env.pubBindErr with
            | some e =>
              { server := none, err := some e,
                commandSockCreated := true, evpubSockCreated := true,
                finalState := CloseServer server2 }
            | none =>
              { server := some server2, err := none,
                commandSockCreated := true, evpubSockCreated := true,
                finalState := server2 }

/-- The control point of `loopServer` (server.go lines 264-303) during
shutdown: blocked in the `select` (lines 283-301); returned via the
`stop` case and now inside `stopPoller` blocked sending on the
unbuffered `pollCancel` (line 248); sent the cancel and blocked
receiving the acknowledgement (line 249); or fully returned. -/
inductive LoopSt
  | sel
  | cancelSend
  | cancelRecv
  | ldone
deriving Repr, DecidableEq

/-- The control point of one `asyncPoll` goroutine (server.go lines
230-245): inside the bounded `zmq.Poll`; blocked sending its
notification on the unbuffered `pollchan` (line 235); at the `select`
on the cancel channel with `default` (lines 238-243); blocked sending
the acknowledgement back (line 240); or returned. -/
inductive PollSt
  | polling
  | notifySend
  | checkStop
  | ackSend
  | pdone
deriving Repr, DecidableEq

/-- A configuration of the shutdown fragment of the message loop: the
loop's control point, the control points of the live `asyncPoll`
goroutines, and whether the capacity-1 `stopChan` holds the signal sent
by `Stop()`.  Request handlers and the response funnel are quiescent in
the modelled scenario and omitted. -/
structure LoopConfig where
  loop : LoopSt
  pollers : List PollSt
  stopBuf : Bool
deriving Repr, DecidableEq

/-- Interleaving semantics of `loopServer` + `asyncPoll` + `stopPoller`
(server.go lines 230-303) in the shutdown fragment.  Unbuffered channel
operations are rendezvous transitions; `select` with `default` takes
the communication when its peer is blocked ready and the `default`
branch otherwise.  On delivering a poll notification the loop reads the
request, spawns a handler, and spawns a fresh `asyncPoll` goroutine
(line 293) while the notifying goroutine proceeds to its stop check. -/
inductive LoopStep : LoopConfig → LoopConfig → Prop
  | pollReady (c : LoopConfig) (l1 l2 : List PollSt) :
      c.pollers = l1 ++ PollSt.polling :: l2 →
      LoopStep c ⟨c.loop, l1 ++ PollSt.notifySend :: l2, c.stopBuf⟩
  | pollTimeout (c : LoopConfig) (l1 l2 : List PollSt) :
      c.pollers = l1 ++ PollSt.polling :: l2 →
      LoopStep c ⟨c.loop, l1 ++ PollSt.checkStop :: l2, c.stopBuf⟩
  | notifyDeliver (c : LoopConfig) (l1 l2 : List PollSt) :
      c.loop = LoopSt.sel →
      c.pollers = l1 ++ PollSt.notifySend :: l2 →
      LoopStep c ⟨LoopSt.sel, (l1 ++ PollSt.checkStop :: l2) ++ [PollSt.polling], c.stopBuf⟩
  | stopDeliver (c : LoopConfig) :
      c.loop = LoopSt.sel →
      c.stopBuf = true →
      LoopStep c ⟨LoopSt.cancelSend, c.pollers, false⟩
  | checkDefault (c : LoopConfig) (l1 l2 : List PollSt) :
      c.pollers = l1 ++ PollSt.checkStop :: l2 →
      c.loop ≠ LoopSt.cancelSend →
      LoopStep c ⟨c.loop, l1 ++ PollSt.polling :: l2, c.stopBuf⟩
  | cancelDeliver (c : LoopConfig) (l1 l2 : List PollSt) :
      c.loop = LoopSt.cancelSend →
      c.pollers = l1 ++ PollSt.checkStop :: l2 →
      LoopStep c ⟨LoopSt.cancelRecv, l1 ++ PollSt.ackSend :: l2, c.stopBuf⟩
  | ackDeliver (c : LoopConfig) (l1 l2 : List PollSt) :
      c.loop = LoopSt.cancelRecv →
      c.pollers = l1 ++ PollSt.ackSend :: l2 →
      LoopStep c ⟨LoopSt.ldone, l1 ++ PollSt.pdone :: l2, c.stopBuf⟩

/-- The configuration right after `Stop()` has buffered its signal while
the single in-flight `asyncPoll` goroutine is inside its bounded
`zmq.Poll` call. -/
def initShutdown : LoopConfig :=
  { loop := LoopSt.sel, pollers := [PollSt.polling], stopBuf := true }

/-- The deadlocked configuration: the loop took the `stop` branch of its
`select` and is blocked in `stopPoller` sending on `pollCancel`, while
the poller — its poll having returned ready — is blocked sending its
notification on `pollchan`; neither send can ever rendezvous. -/
def stuckConfig : LoopConfig :=
  { loop := LoopSt.cancelSend, pollers := [PollSt.notifySend], stopBuf := false }

/-- A singleton list decomposes along an append-cons split only
trivially. -/
lemma singleton_eq_append_cons {α : Type} {a x : α} {l1 l2 : List α}
    (h : [a] = l1 ++ x :: l2) : a = x ∧ l1 = [] ∧ l2 = [] := by
  cases l1 <;> simp_all

/-- C1: the claim that every Response reproduces its request's Envelope
frames byte-for-byte, in order and none dropped, is violated by the
code: `listToFrames` writes every frame to index 0, so for the request
`["client-id", "", "FOO"]` (Envelope `["client-id", ""]`) the only
Response emitted is `["ERROR Unknown request type.", ""]` — the
routing-identity frame `"client-id"` is dropped — for every backend. -/
theorem response_envelope_dropped (estore : EventStore) :
    handleRequest estore ["client-id", "", "FOO"] =
      some [["ERROR Unknown request type.", ""]] ∧
    (["ERROR Unknown request type.", ""] : zMsg).take 2 ≠
      (["client-id", ""] : zMsg) := by
  exact ⟨rfl, by decide⟩

/-- C1 witness: the violation evaluated at the concrete backend
`estoreOk`. -/
theorem response_envelope_dropped_witness :
    handleRequest estoreOk ["client-id", "", "FOO"] =
      some [["ERROR Unknown request type.", ""]] ∧
    (["ERROR Unknown request type.", ""] : zMsg).take 2 ≠
      (["client-id", ""] : zMsg) :=
  response_envelope_dropped estoreOk

/-- C2: the claim that a Message without an empty Frame yields the
`Incoming command was empty` ERROR Response and never crashes is
violated: the envelope scan of `handleRequest` dereferences
`parts.Front()` after the last frame has been removed, so the goroutine
panics (modelled as `none`) on `["PUBLISH"]` and on the empty Message,
emitting no Response at all, for every backend. -/
theorem malformed_envelope_panics (estore : EventStore) :
    handleRequest estore ["PUBLISH"] = none ∧
    handleRequest estore [] = none := by
  exact ⟨rfl, rfl⟩

/-- C2 witness: the panic evaluated at the concrete backend
`estoreOk`. -/
theorem malformed_envelope_panics_witness :
    handleRequest estoreOk ["PUBLISH"] = none ∧
    handleRequest estoreOk [] = none :=
  malformed_envelope_panics estoreOk

/-- C3: the claim that a request whose first Frame after the Envelope is
`PUBLISH` is dispatched to the backend append is violated: the envelope
scan leaves the empty delimiter frame at the front of `parts`, so the
command read is always the empty frame; the well-formed request
`["client-id", "", "PUBLISH", "stream-a", "data-a"]` is answered
`ERROR Unknown request type.` and — since the result is the same for
every backend — `estore.Add` is never called and no `PUBLISHED`
Response is ever emitted. -/
theorem publish_never_dispatched (estore : EventStore) :
    handleRequest estore ["client-id", "", "PUBLISH", "stream-a", "data-a"] =
      some [["ERROR Unknown request type.", ""]] := by
  exact rfl

/-- C3 witness: the misdispatch evaluated at the concrete backend
`estoreOk`, whose `Add` always succeeds. -/
theorem publish_never_dispatched_witness :
    handleRequest estoreOk ["client-id", "", "PUBLISH", "stream-a", "data-a"] =
      some [["ERROR Unknown request type.", ""]] :=
  publish_never_dispatched estoreOk

/-- C4: the claim that a `QUERY` request with 3 argument frames yields
`EVENT ...` Responses followed by `END` is violated for the same reason
as C3: the command frame examined is the empty delimiter, so the
well-formed request `["client-id", "", "QUERY", "stream-a", "from-id",
"to-id"]` is answered `ERROR Unknown request type.` for every backend —
`estore.Query` is never called and no `EVENT` or `END` Response is
emitted. -/
theorem query_never_dispatched (estore : EventStore) :
    handleRequest estore ["client-id", "", "QUERY", "stream-a", "from-id", "to-id"] =
      some [["ERROR Unknown request type.", ""]] := by
  exact rfl

/-- C4 witness: the misdispatch evaluated at the concrete backend
`estoreOk`, whose `Query` always succeeds. -/
theorem query_never_dispatched_witness :
    handleRequest estoreOk ["client-id", "", "QUERY", "stream-a", "from-id", "to-id"] =
      some [["ERROR Unknown request type.", ""]] :=
  query_never_dispatched estoreOk

/-- C5: lifecycle misuse returns ordinary errors without changing state:
`Start` on a running server errors and launches no second loop;
`Stop` on a non-running server errors and performs no action; a second
concurrent `Stop` (stop signal already buffered) gets the
`Stop already signalled.` error immediately from the non-blocking
`select`, unchanged state; and the first `Stop` reaches `Wait`, which
does not return while the loop goroutine is alive (`waiter = 1`) and
returns once the loop has exited. -/
theorem lifecycle_misuse (s : SrvState) :
    (IsRunning s = true →
      (start s).err = some "Already is in running state." ∧
      (start s).loopLaunched = false ∧
      (start s).state = s) ∧
    (IsRunning s = false → stopAttempt s = (StopOutcome.errNotRunning, s)) ∧
    (IsRunning s = true → s.stopBuffered = true →
      stopAttempt s = (StopOutcome.errAlreadySignalled, s)) ∧
    (IsRunning s = true → s.stopBuffered = false →
      (stopAttempt s).1 = StopOutcome.signalledAndWaiting ∧
      (s.waiter = 1 → ¬ waitReturns s ∧ waitReturns (loopExit s))) := by
  obtain ⟨running, stopB, waiter, a, b, c⟩ := s
  refine ⟨?_, ?_, ?_, ?_⟩ <;>
    cases running <;> cases stopB <;>
      (simp [IsRunning, start, setRunningState, stopAttempt, loopExit, waitReturns]
       try omega)

/-- C5 witness: the four cases at concrete states. -/
theorem lifecycle_misuse_witness :
    ((start sRunning).err = some "Already is in running state." ∧
      (start sRunning).loopLaunched = false ∧
      (start sRunning).state = sRunning) ∧
    stopAttempt sIdle = (StopOutcome.errNotRunning, sIdle) ∧
    stopAttempt sSignalled = (StopOutcome.errAlreadySignalled, sSignalled) ∧
    ((stopAttempt sRunning).1 = StopOutcome.signalledAndWaiting ∧
      (¬ waitReturns sRunning ∧ waitReturns (loopExit sRunning))) :=
  ⟨(lifecycle_misuse sRunning).1 rfl,
   (lifecycle_misuse sIdle).2.1 rfl,
   (lifecycle_misuse sSignalled).2.2.1 rfl rfl,
   ((lifecycle_misuse sRunning).2.2.2 rfl rfl).1,
   ((lifecycle_misuse sRunning).2.2.2 rfl rfl).2 rfl⟩

/-- C6: construction is all-or-nothing: whenever `New` returns an error
— nil/missing parameters, socket-creation failure or bind failure — no
server handle is returned and the partially built server has been torn
down by the deferred `Close`: neither socket remains open. -/
theorem new_teardown_on_error (params : Option InitParams) (env : ZmqEnv)
    (h : (NewServer params env).err ≠ none) :
    (NewServer params env).server = none ∧
    (NewServer params env).finalState.hasCommandSock = false ∧
    (NewServer params env).finalState.hasEvpubSock = false := by
  rcases params with _ | p
  · simp [NewServer, noServerBuilt]
  · rcases env with ⟨nr, rb, np, pb⟩
    rcases hcheck : checkAllInitParamsSet p with _ | e <;>
      cases nr <;> cases rb <;> cases np <;> cases pb <;>
        simp_all [NewServer, CloseServer, noServerBuilt]

/-- C6 witness: the bind failure on the publish socket — a path on which
the command socket had already been created and bound — torn down. -/
theorem new_teardown_on_error_witness :
    (NewServer (some { hasStore := true, hasCommandSocketZPath := true,
                       hasEvPubSocketZPath := true, hasZMQContext := true })
               { newRouterErr := none, routerBindErr := none,
                 newPubErr := none, pubBindErr := some "bind: address in use" }).err ≠ none ∧
    (NewServer (some { hasStore := true, hasCommandSocketZPath := true,
                       hasEvPubSocketZPath := true, hasZMQContext := true })
               { newRouterErr := none, routerBindErr := none,
                 newPubErr := none, pubBindErr := some "bind: address in use" }).commandSockCreated = true ∧
    ((NewServer (some { hasStore := true, hasCommandSocketZPath := true,
                        hasEvPubSocketZPath := true, hasZMQContext := true })
                { newRouterErr := none, routerBindErr := none,
                  newPubErr := none, pubBindErr := some "bind: address in use" }).server = none ∧
     (NewServer (some { hasStore := true, hasCommandSocketZPath := true,
                        hasEvPubSocketZPath := true, hasZMQContext := true })
                { newRouterErr := none, routerBindErr := none,
                  newPubErr := none, pubBindErr := some "bind: address in use" }).finalState.hasCommandSock = false ∧
     (NewServer (some { hasStore := true, hasCommandSocketZPath := true,
                        hasEvPubSocketZPath := true, hasZMQContext := true })
                { newRouterErr := none, routerBindErr := none,
                  newPubErr := none, pubBindErr := some "bind: address in use" }).finalState.hasEvpubSock = false) :=
  ⟨by decide, by decide, new_teardown_on_error _ _ (by decide)⟩

/-- C7: the claim that `Start()` followed by `Stop()` terminates within
roughly one poll interval in every execution is violated: when poll
readiness fires concurrently with shutdown and the loop's `select`
takes the `stop` branch, the system reaches a configuration in which
`loopServer` is blocked forever in `stopPoller`'s send on `pollCancel`
while `asyncPoll` is blocked forever sending on `pollchan` — a
reachable deadlock in which the loop never exits, so `Stop()` never
returns. -/
theorem stop_shutdown_deadlock :
    Relation.ReflTransGen LoopStep initShutdown stuckConfig ∧
    (∀ c : LoopConfig, ¬ LoopStep stuckConfig c) ∧
    stuckConfig.loop ≠ LoopSt.ldone := by
  refine ⟨?_, ?_, by decide⟩
  · have h1 : LoopStep initShutdown
        { loop := LoopSt.sel, pollers := [PollSt.notifySend], stopBuf := true } :=
      LoopStep.pollReady initShutdown [] [] rfl
    have h2 : LoopStep
        { loop := LoopSt.sel, pollers := [PollSt.notifySend], stopBuf := true }
        stuckConfig :=
      LoopStep.stopDeliver _ rfl rfl
    exact Relation.ReflTransGen.head h1 (Relation.ReflTransGen.single h2)
  · intro c hstep
    cases hstep with
    | pollReady l1 l2 hp =>
      have hp2 : [PollSt.notifySend] = l1 ++ PollSt.polling :: l2 := hp
      exact absurd (singleton_eq_append_cons hp2).1 (by decide)
    | pollTimeout l1 l2 hp =>
      have hp2 : [PollSt.notifySend] = l1 ++ PollSt.polling :: l2 := hp
      exact absurd (singleton_eq_append_cons hp2).1 (by decide)
    | notifyDeliver l1 l2 hl hp =>
      exact absurd hl (by decide)
    | stopDeliver hl hb =>
      exact absurd hl (by decide)
    | checkDefault l1 l2 hp hl =>
      have hp2 : [PollSt.notifySend] = l1 ++ PollSt.checkStop :: l2 := hp
      exact absurd (singleton_eq_append_cons hp2).1 (by decide)
    | cancelDeliver l1 l2 hl hp =>
      have hp2 : [PollSt.notifySend] = l1 ++ PollSt.checkStop :: l2 := hp
      exact absurd (singleton_eq_append_cons hp2).1 (by decide)
    | ackDeliver l1 l2 hl hp =>
      exact absurd hl (by decide)

/-- C7 witness: a concrete instance of the no-step half of the deadlock
theorem. -/
theorem stop_shutdown_deadlock_witness :
    ¬ LoopStep stuckConfig initShutdown :=
  stop_shutdown_deadlock.2.1 initShutdown

/-- C8: the Event Publisher sends exactly one 3-frame message
`[stream, id, data]` per `StoredEvent`, in channel receipt order
(position `i` of the output comes from position `i` of the input, and
the output over a concatenation of receipt batches is the concatenation
of the outputs — FIFO), and it processes the whole received sequence,
terminating exactly at the channel close that ends it. -/
theorem publish_fifo (events : List StoredEvent) :
    (publishAllSavedEvents events).length = events.length ∧
    (∀ i : Nat, (publishAllSavedEvents events)[i]? =
      (events[i]?).map (fun stored => [stored.event.stream, stored.id, stored.event.data])) ∧
    (∀ pre post : List StoredEvent,
      publishAllSavedEvents (pre ++ post) =
        publishAllSavedEvents pre ++ publishAllSavedEvents post) := by
  refine ⟨by simp [publishAllSavedEvents], ?_, ?_⟩
  · intro i
    simp [publishAllSavedEvents, List.getElem?_map]
  · intro pre post
    simp [publishAllSavedEvents]

/-- C8 witness: the publisher's output at a concrete two-event receipt
sequence. -/
theorem publish_fifo_witness :
    (publishAllSavedEvents
      [{ id := "id1", event := { stream := "orders", data := "a" } },
       { id := "id2", event := { stream := "orders", data := "b" } }]).length = 2 :=
  (publish_fifo
    [{ id := "id1", event := { stream := "orders", data := "a" } },
     { id := "id2", event := { stream := "orders", data := "b" } }]).1

/-- C9: `asyncPoll` emits exactly one notification per poll cycle whose
ready count is positive or whose poll returned an error (the number of
notifications equals the number of such cycles), emits nothing and
silently re-arms on a pure-timeout cycle (`count = 0`, no error), and
emits exactly one notification carrying the error value on a qualifying
cycle. -/
theorem asyncPoll_emission (r : PollResult) (rs : List PollResult) :
    (asyncPollNotifications rs).length = rs.countP pollNotifies ∧
    (r.count = 0 → r.err = none →
      asyncPollNotifications (r :: rs) = asyncPollNotifications rs) ∧
    ((0 < r.count ∨ r.err ≠ none) →
      asyncPollNotifications (r :: rs) = r.err :: asyncPollNotifications rs) := by
  refine ⟨?_, ?_, ?_⟩
  · induction rs with
    | nil => simp [asyncPollNotifications]
    | cons a as ih =>
      by_cases ha : pollNotifies a = true <;>
        simp [asyncPollNotifications, List.countP_cons, ha, ih]
  · intro h1 h2
    simp [asyncPollNotifications, pollNotifies, h1, h2]
  · intro h
    have hn : pollNotifies r = true := by
      rcases h with h | h
      · simp [pollNotifies, h]
      · simp [pollNotifies, Option.isSome_iff_ne_none, h]
    simp [asyncPollNotifications, hn]

/-- C9 witness: a ready cycle emits its notification; a pure-timeout
cycle emits nothing. -/
theorem asyncPoll_emission_witness :
    asyncPollNotifications [{ count := 1, err := none }] = [(none : Option String)] ∧
    asyncPollNotifications [{ count := 0, err := none }] = [] :=
  ⟨(asyncPoll_emission { count := 1, err := none } []).2.2 (Or.inl (by decide)),
   (asyncPoll_emission { count := 0, err := none } []).2.1 rfl rfl⟩

/-- C10: `New` returns exactly one of a server handle and an error, and
every returned server starts stopped: `IsRunning` is `false` with no
stop signal buffered, both sockets and the context are initialized, a
`Stop` before `Start` errors leaving the state unchanged (the flag
stays `false` until `Start`), and `Start` is what launches the loop. -/
theorem new_exactly_one (params : Option InitParams) (env : ZmqEnv) :
    ((NewServer params env).server.isSome ↔ (NewServer params env).err = none) ∧
    (∀ srv : SrvState, (NewServer params env).server = some srv →
      IsRunning srv = false ∧ srv.stopBuffered = false ∧
      srv.hasCommandSock = true ∧ srv.hasEvpubSock = true ∧ srv.hasContext = true ∧
      stopAttempt srv = (StopOutcome.errNotRunning, srv) ∧
      (start srv).loopLaunched = true) := by
  rcases params with _ | p
  · simp [NewServer, noServerBuilt]
  · rcases env with ⟨nr, rb, np, pb⟩
    rcases hcheck : checkAllInitParamsSet p with _ | e <;>
      cases nr <;> cases rb <;> cases np <;> cases pb <;>
        simp_all [NewServer, CloseServer, noServerBuilt, IsRunning, stopAttempt,
                  start, setRunningState]

/-- C10 witness: the successful construction and the stopped initial
state of the server it returns. -/
theorem new_exactly_one_witness :
    IsRunning { running := false, stopBuffered := false, waiter := 0,
                hasCommandSock := true, hasEvpubSock := true, hasContext := true } = false ∧
    SrvState.stopBuffered { running := false, stopBuffered := false, waiter := 0,
                            hasCommandSock := true, hasEvpubSock := true, hasContext := true } = false ∧
    SrvState.hasCommandSock { running := false, stopBuffered := false, waiter := 0,
                              hasCommandSock := true, hasEvpubSock := true, hasContext := true } = true ∧
    SrvState.hasEvpubSock { running := false, stopBuffered := false, waiter := 0,
                            hasCommandSock := true, hasEvpubSock := true, hasContext := true } = true ∧
    SrvState.hasContext { running := false, stopBuffered := false, waiter := 0,
                          hasCommandSock := true, hasEvpubSock := true, hasContext := true } = true ∧
    stopAttempt { running := false, stopBuffered := false, waiter := 0,
                  hasCommandSock := true, hasEvpubSock := true, hasContext := true } =
      (StopOutcome.errNotRunning,
       { running := false, stopBuffered := false, waiter := 0,
         hasCommandSock := true, hasEvpubSock := true, hasContext := true }) ∧
    (start { running := false, stopBuffered := false, waiter := 0,
             hasCommandSock := true, hasEvpubSock := true, hasContext := true }).loopLaunched = true :=
  (new_exactly_one
    (some { hasStore := true, hasCommandSocketZPath := true,
            hasEvPubSocketZPath := true, hasZMQContext := true })
    { newRouterErr := none, routerBindErr := none,
      newPubErr := none, pubBindErr := none }).2 _ rfl

end Gorewind
